import Mathlib

/-
Shallow embedding of the async_db_handler repository
(src/postgres_access.py and src/asy.py), developed to check the
natural-language specification against the code.

The embedding follows the source functions; where a definition is not
present under src/ (it is only imported there), its doc comment says so
and the definition is modelled from the specification instead.
-/

namespace AsyncDBHandler

/- ### Poll states and the blocking readiness loop
`PostgresAccess.wait` (src/postgres_access.py lines 247-258): a `while 1`
loop over `conn.poll()` results. `POLL_OK` breaks the loop; `POLL_WRITE`
blocks in `select.select([], [fd], [])`; `POLL_READ` blocks in
`select.select([fd], [], [])`; any other value raises
`psycopg2.OperationalError` directly, without the `DBException` wrapper. -/

/-- Result of one `conn.poll()` call, as tested by `PostgresAccess.wait`. -/
inductive PollState
  | ok
  | pollRead
  | pollWrite
  | other (code : Nat)
deriving DecidableEq, Repr

/-- The blocking I/O action `wait` performs for a poll result:
`selectRead` is `select.select([fd], [], [])`, `selectWrite` is
`select.select([], [fd], [])`. Both block the whole thread. -/
inductive WaitAction
  | selectRead
  | selectWrite
deriving DecidableEq, Repr

/-- The two kinds of exception the driver adapter can raise:
`operationalError code` models a raw `psycopg2.OperationalError`
escaping unwrapped, and `dbException code` models `DBException`
(the spec's DriverError wrapper) raised by the `except psycopg2.Error`
handlers. -/
inductive RaisedErr
  | operationalError (code : Nat)
  | dbException (code : Nat)
deriving DecidableEq, Repr

/-- `PostgresAccess.wait`, run against a finite trace of poll results
(the successive values returned by `conn.poll()`).  Returns `none` when
the trace is exhausted with the loop still running, otherwise the list
of blocking select actions performed, or the raised error. -/
def waitRun : List PollState → Option (Except RaisedErr (List WaitAction))
  | [] => none
  | PollState.ok :: _ => some (Except.ok [])
  | PollState.pollRead :: rest =>
      (waitRun rest).map (fun r => r.map (fun as => WaitAction.selectRead :: as))
  | PollState.pollWrite :: rest =>
      (waitRun rest).map (fun r => r.map (fun as => WaitAction.selectWrite :: as))
  | PollState.other code :: _ =>
      some (Except.error (RaisedErr.operationalError code))

/-- The poll result that makes `wait` perform a given blocking select. -/
def pollOf : WaitAction → PollState
  | WaitAction.selectRead => PollState.pollRead
  | WaitAction.selectWrite => PollState.pollWrite

/-- Whether a finished `waitRun` outcome raised the `DBException`
(DriverError) wrapper, as opposed to a raw driver error. -/
def raisedIsDriverError : Option (Except RaisedErr (List WaitAction)) → Bool
  | some (Except.error (RaisedErr.dbException _)) => true
  | _ => false

/- ### Cursor, results and the two execute paths
`__cursor_execute` dispatches on a method string and wraps any
`psycopg2.Error` in `DBException`.  `__cursor_retrieve` /
`__cursor_retrieve_async` read `cursor.rowcount` when the retrieve
method is `None` and call `cursor.fetchall()` when it is `'fetchall'`.
The async variant stores the value in `self.result`, removes the loop
reader and sets the event; it returns nothing. -/

/-- The locally buffered server response: what `fetchall()` would
return, and the cursor's `rowcount` attribute. -/
structure Cursor where
  fetched : List (List Int)
  rowcount : Int
deriving DecidableEq, Repr

/-- A retrieved query result: either the materialised row set or the
affected-row count. -/
inductive DBResult
  | rows (rs : List (List Int))
  | rowcount (n : Int)
deriving DecidableEq, Repr

/-- `PostgresAccess.__cursor_execute`: runs the cursor method; a
`psycopg2.Error` (modelled as `some code`) is wrapped in `DBException`. -/
def cursorExecute (execErr : Option Nat) : Except RaisedErr Unit :=
  match execErr with
  | some code => Except.error (RaisedErr.dbException code)
  | none => Except.ok ()

/-- `PostgresAccess.__cursor_retrieve`: `None` retrieve method reads
`rowcount`, the string `'fetchall'` materialises the rows (any other
method string has no attribute and is `none` here; the source only ever
passes these two). -/
def cursorRetrieve (c : Cursor) : Option String → Option DBResult
  | none => some (DBResult.rowcount c.rowcount)
  | some m => if m = "fetchall" then some (DBResult.rows c.fetched) else none

/-- `PostgresAccess.execute_normal` / `__execute_normal`: execute, then
synchronously retrieve; the retrieved value is the return value. -/
def executeNormal (execErr : Option Nat) (c : Cursor) (result : Bool) :
    Except RaisedErr (Option DBResult) :=
  match cursorExecute execErr with
  | Except.error e => Except.error e
  | Except.ok _ =>
      Except.ok (cursorRetrieve c (if result then some "fetchall" else none))

/-- The mutable state of an async session relevant to `execute_async`:
the cursor, the `self.result` attribute, the `asyncio.Event` flag and
whether the connection's fd has a reader registered on the loop. -/
structure ASession where
  cursor : Cursor
  result : Option DBResult
  evSet : Bool
  readerRegistered : Bool
deriving DecidableEq, Repr

/-- `PostgresAccess.__cursor_retrieve_async`: store the retrieved value
in `self.result`, remove the loop reader, set the event.  Returns
nothing (the Python method returns `None`). -/
def cursorRetrieveAsync (s : ASession) (m : Option String) : ASession :=
  { s with
    result := cursorRetrieve s.cursor m
    readerRegistered := false
    evSet := true }

/-- `PostgresAccess.watch`: register a reader for the fd with the loop;
the readiness callback (`__cursor_retrieve_async`) fires; `await
self.ev.wait()` completes only after the callback set the event, then
the event is cleared. -/
def watch (s : ASession) (m : Option String) : ASession :=
  let registered := { s with readerRegistered := true }
  let afterCallback := cursorRetrieveAsync registered m
  { afterCallback with evSet := false }

/-- `PostgresAccess.execute_async` / `__execute_async`: execute, then
`watch`.  The coroutine returns `None`; the retrieved value is only
available as the session's `result` attribute afterwards. -/
def executeAsync (execErr : Option Nat) (s : ASession) (result : Bool) :
    Except RaisedErr (ASession × Option DBResult) :=
  match cursorExecute execErr with
  | Except.error e => Except.error e
  | Except.ok _ =>
      let m := if result then some "fetchall" else none
      Except.ok (watch s m, none)

/- ### Scope exit
`PostgresAccess.__exit__` (src/postgres_access.py lines 47-48) is
`pass`: no cleanup of any kind, and it returns `None` (exceptions are
not suppressed). -/

/-- Session resources a scope exit could release: the connection and
any reader/writer registration on the loop. -/
structure SessionScope where
  connOpen : Bool
  readerRegistered : Bool
  writerRegistered : Bool
deriving DecidableEq, Repr

/-- How the `with` block is exited: normally, with an exception, or by
cancellation. -/
inductive ExitKind
  | normal
  | error (code : Nat)
  | cancelled
deriving DecidableEq, Repr

/-- `PostgresAccess.__exit__`: the body is `pass`, so the state is
returned unchanged; the second component is whether the exception is
suppressed (`None` in Python, i.e. `false`). -/
def exitScope (s : SessionScope) (_ : ExitKind) : SessionScope × Bool :=
  (s, false)

/- ### Synchronous-mode transaction flags
`PostgresAccess.__init__` with `loop is None` sets
`connection.autocommit = True` and `self.__is_transaction = False`;
`start_transaction`, `close_transaction`, `rollback_transaction` and
`__return_autocommit` toggle the pair (lines 146-200). -/

/-- The flag pair of a synchronous-mode session: the connection's
`autocommit` attribute and the private `__is_transaction` attribute. -/
structure SyncSession where
  autocommit : Bool
  isTransaction : Bool
deriving DecidableEq, Repr

/-- State after `PostgresAccess.__init__` with `loop is None`. -/
def initSync : SyncSession :=
  { autocommit := true, isTransaction := false }

/-- `PostgresAccess.__return_autocommit`. -/
def returnAutocommit (s : SyncSession) : SyncSession :=
  if s.isTransaction then { autocommit := true, isTransaction := false } else s

/-- `PostgresAccess.start_transaction`. -/
def startTransaction (s : SyncSession) : SyncSession :=
  if s.isTransaction then s else { autocommit := false, isTransaction := true }

/-- `PostgresAccess.close_transaction`: second component lists the
connection operations issued (`commit`). -/
def closeTransaction (s : SyncSession) : SyncSession × List String :=
  if s.isTransaction then (returnAutocommit s, ["commit"]) else (s, [])

/-- `PostgresAccess.rollback_transaction`: second component lists the
connection operations issued (`rollback`). -/
def rollbackTransaction (s : SyncSession) : SyncSession × List String :=
  if s.isTransaction then (returnAutocommit s, ["rollback"]) else (s, [])

/-- The invariant claimed for synchronous mode: the private transaction
flag is `true` iff connection autocommit is `false`. -/
def txInvariant (s : SyncSession) : Prop :=
  s.isTransaction = true ↔ s.autocommit = false

instance (s : SyncSession) : Decidable (txInvariant s) := by
  unfold txInvariant; infer_instance

/- ### Notification dispatch (src/asy.py)
`catch_notify` (lines 18-36): for each notification `n` of a received
batch, the first event `ev` with `ev.is_set()` false receives
`ev.data = n; ev.set()`; when no event is free, the `for ... else`
branch runs `deferred_tasks += notifications`, appending the WHOLE
batch.  `worker` (lines 38-54): waits on its event, executes the
placeholder query for `ev.data`, clears the event, then pops
`deferred_tasks[0]` and only prints it — the popped task is never
executed. -/

/-- One per-worker `asyncio.Event` with its `data` attribute
(notification payloads are numbered). -/
structure Ev where
  isSet : Bool
  data : Option Nat
deriving DecidableEq, Repr

/-- The inner `for ev in evs` loop of `catch_notify` for one
notification: assign it to the first event whose flag is clear and set
that event; `none` when every event is set (the `else` branch runs). -/
def assignFirstFree (n : Nat) : List Ev → Option (List Ev)
  | [] => none
  | ev :: rest =>
      if ev.isSet then (assignFirstFree n rest).map (fun evs => ev :: evs)
      else some ({ isSet := true, data := some n } :: rest)

/-- One iteration of the outer `for n in notifications` loop: on
overflow the whole batch (the loop's closure variable `notifications`)
is appended to `deferred_tasks`. -/
def dispatchStep (batch : List Nat) (st : List Ev × List Nat) (n : Nat) :
    List Ev × List Nat :=
  match assignFirstFree n st.1 with
  | some evs => (evs, st.2)
  | none => (st.1, st.2 ++ batch)

/-- The body of `catch_notify` for one received batch: fold the
dispatch step over the batch, starting from the current events and
deferred list. -/
def dispatchBatch (batch : List Nat) (evs : List Ev) (deferred : List Nat) :
    List Ev × List Nat :=
  batch.foldl (dispatchStep batch) (evs, deferred)

/-- The payloads held by events whose flag is set (the notifications a
worker will actually process). -/
def evAssigned (evs : List Ev) : List Nat :=
  evs.filterMap (fun ev => if ev.isSet then ev.data else none)

/-- One iteration of `worker` after `ev.wait()` returns: the worker
executes the query for `ev.data` (first component: notifications
processed this iteration), clears the event, then pops
`deferred_tasks[0]` without executing it (an `IndexError` on an empty
list is caught and ignored); second component: the deferred list
afterwards. -/
def workerIteration (evPayload : Nat) (deferred : List Nat) :
    List Nat × List Nat :=
  ([evPayload], deferred.tail)

/- ### Startup configuration (src/asy.py lines 80-91)
Only `PG_URI` is read from the environment; when it is missing a
message is printed (by `print`, i.e. to stdout) and `exit(1)` runs.
`WORKERS_NUM` is never consulted: the script builds `range(10)`
connections, events and workers. -/

/-- Which stream a startup diagnostic goes to. -/
inductive OutStream
  | stdout
  | stderr
deriving DecidableEq, Repr

/-- Outcome of the module-level startup code: the diagnostics printed,
the exit code when the process exits early, and the worker-pool size
when startup proceeds. -/
structure StartupOutcome where
  messages : List (OutStream × String)
  exitCode : Option Nat
  poolSize : Option Nat
deriving DecidableEq, Repr

/-- `os.getenv` over an association-list environment. -/
def lookupEnv (env : List (String × String)) (k : String) : Option String :=
  (env.find? (fun p => p.1 = k)).map (fun p => p.2)

/-- The module-level configuration code of src/asy.py: check `PG_URI`
only; on absence print the diagnostic and exit 1; otherwise spawn the
hard-coded pool of 10 workers. -/
def startup (env : List (String × String)) : StartupOutcome :=
  match lookupEnv env "PG_URI" with
  | none =>
      { messages :=
          [(OutStream.stdout, "Environment variable PG_URI is not defined!!!")]
        exitCode := some 1
        poolSize := none }
  | some _ =>
      { messages := [], exitCode := none, poolSize := some 10 }

/- ### Signal handling (src/asy.py lines 57-77, 93-96)
For each of SIGINT and SIGTERM the registration loop builds
`functools.partial(asyncio.ensure_future, stop())`: the `stop()`
coroutine object is created once per signal at registration time.  The
first delivery of a signal schedules that coroutine (cancel all tasks,
gather them, `loop.stop()`); a second delivery of the same signal hands
the already-consumed coroutine object to `ensure_future` again, which
fails with a `RuntimeError` — there is no escalation path.  After
`loop.stop()` the script runs `loop.close()` and falls off the end, so
the process exit code is 0. -/

/-- Whether each signal's pre-built `stop()` coroutine object has
already been scheduled. -/
structure SignalInstall where
  sigintConsumed : Bool
  sigtermConsumed : Bool
deriving DecidableEq, Repr

/-- The two installed signals. -/
inductive Sig
  | sigint
  | sigterm
deriving DecidableEq, Repr

/-- What delivering a signal does: schedule the cooperative `stop()`
coroutine, or fail with `RuntimeError` when that signal's coroutine
object was already consumed. -/
inductive FireOutcome
  | cooperativeStop
  | coroutineReuseError
deriving DecidableEq, Repr

/-- Delivering one signal to the handlers installed by src/asy.py. -/
def fireSignal (st : SignalInstall) : Sig → SignalInstall × FireOutcome
  | Sig.sigint =>
      if st.sigintConsumed then (st, FireOutcome.coroutineReuseError)
      else ({ st with sigintConsumed := true }, FireOutcome.cooperativeStop)
  | Sig.sigterm =>
      if st.sigtermConsumed then (st, FireOutcome.coroutineReuseError)
      else ({ st with sigtermConsumed := true }, FireOutcome.cooperativeStop)

/-- Task state as seen by `stop`. -/
inductive TaskStatus
  | running
  | cancelled
deriving DecidableEq, Repr

/-- The `stop` coroutine's effect on the spawned tasks: every task
(other than `stop` itself) is cancelled, then gathered. -/
def stopTasks (tasks : List TaskStatus) : List TaskStatus :=
  tasks.map (fun _ => TaskStatus.cancelled)

/-- Exit code of the process after `loop.stop()` lets `run_forever`
return and the script ends. -/
def exitCodeAfterLoopStop : Nat := 0

/- ### Operations missing from src/
src/asy.py imports `AsyncPostgresAccess` from postgres_access and calls
`listen` and `get_notifications` on it, but src/postgres_access.py
defines neither; they are modelled from the specification. -/

/-- A PostgreSQL asynchronous notification (spec section 3). -/
structure Notification where
  channel : String
  pid : Nat
  payload : String
deriving DecidableEq, Repr

/-- A channel character the spec requires `listen` to reject:
semicolon, single quote (39), double quote (34), or whitespace. -/
def badChannelChar (c : Char) : Bool :=
  c = ';' || c = Char.ofNat 39 || c = Char.ofNat 34 || c.isWhitespace

/-- Outcome of `listen`: the SQL statements issued, or a DriverError
raised before any SQL was sent. -/
inductive ListenOutcome
  | issued (sql : List String)
  | driverError
deriving DecidableEq, Repr

/-- Modelled from the spec: `AsyncPostgresAccess.listen` is imported
and called by src/asy.py but its definition is not under src/.  Spec
section 4.1: validate the channel identifier, rejecting anything
containing a semicolon, quote, or whitespace with DriverError before
issuing any SQL; otherwise issue the `LISTEN` statement (which takes no
bind parameters). -/
def listen (channel : String) : ListenOutcome :=
  if channel.data.any badChannelChar then ListenOutcome.driverError
  else ListenOutcome.issued ["LISTEN " ++ channel]

/-- Modelled from the spec: `AsyncPostgresAccess.get_notifications`
(the spec's `drain_notifications`) is called by src/asy.py but not
defined under src/.  Spec section 4.1: suspend until at least one
notification has arrived; each readiness callback polls, appending the
newly arrived batch to the session buffer; if the buffer is still empty
re-subscribe and keep waiting; otherwise return the whole buffer in
FIFO order.  Run against a finite trace of arrival batches; `none`
means the trace ended with the call still suspended. -/
def drainNotifications (buffer : List Notification) :
    List (List Notification) → Option (List Notification)
  | [] => none
  | batch :: rest =>
      let buf := buffer ++ batch
      if buf.isEmpty then drainNotifications buf rest else some buf

/- ### Helper lemmas -/

/-- Membership in `evAssigned` is preserved by consing an event. -/
theorem evAssigned_cons_mem {n : Nat} (ev : Ev) {rest : List Ev}
    (h : n ∈ evAssigned rest) : n ∈ evAssigned (ev :: rest) := by
  unfold evAssigned at *
  rw [List.filterMap_cons]
  cases hd : (if ev.isSet then ev.data else none) with
  | none => exact h
  | some d => exact List.mem_cons_of_mem d h

/-- A successfully assigned notification is held by a set event. -/
theorem mem_evAssigned_of_assign {n : Nat} :
    ∀ {evs evs' : List Ev}, assignFirstFree n evs = some evs' →
      n ∈ evAssigned evs'
  | [], _, h => by simp [assignFirstFree] at h
  | ev :: rest, evs', h => by
    by_cases hset : ev.isSet
    · simp only [assignFirstFree, hset, if_true] at h
      rcases Option.map_eq_some'.mp h with ⟨rest', h1, rfl⟩
      exact evAssigned_cons_mem ev (mem_evAssigned_of_assign h1)
    · simp only [assignFirstFree, hset, if_false] at h
      cases h
      simp [evAssigned, List.filterMap_cons]

/-- Assignment never removes a notification already held by a set
event (only events with a clear flag are overwritten). -/
theorem mem_evAssigned_preserved {m n : Nat} :
    ∀ {evs evs' : List Ev}, assignFirstFree m evs = some evs' →
      n ∈ evAssigned evs → n ∈ evAssigned evs'
  | [], _, h, _ => by simp [assignFirstFree] at h
  | ev :: rest, evs', h, hn => by
    by_cases hset : ev.isSet
    · simp only [assignFirstFree, hset, if_true] at h
      rcases Option.map_eq_some'.mp h with ⟨rest', h1, rfl⟩
      unfold evAssigned at hn ⊢
      rw [List.filterMap_cons] at hn ⊢
      cases hd : (if ev.isSet then ev.data else none) with
      | none =>
        rw [hd] at hn
        exact mem_evAssigned_preserved h1 hn
      | some d =>
        rw [hd] at hn
        rcases List.mem_cons.mp hn with h2 | h2
        · exact h2 ▸ List.mem_cons_self d _
        · exact List.mem_cons_of_mem d (mem_evAssigned_preserved h1 h2)
    · simp only [assignFirstFree, hset, if_false] at h
      cases h
      unfold evAssigned at hn ⊢
      rw [List.filterMap_cons] at hn ⊢
      simp only [hset, if_false] at hn
      simp only [if_true]
      exact List.mem_cons_of_mem m hn

/-- Once a notification is assigned to a set event or present in the
deferred list, the rest of the dispatch fold keeps it there. -/
theorem dispatch_persists (batch : List Nat) (n : Nat) :
    ∀ (l : List Nat) (st : List Ev × List Nat),
      (n ∈ evAssigned st.1 ∨ n ∈ st.2) →
      (n ∈ evAssigned (List.foldl (dispatchStep batch) st l).1 ∨
       n ∈ (List.foldl (dispatchStep batch) st l).2)
  | [], _, h => h
  | x :: l, st, h => by
    rw [List.foldl_cons]
    apply dispatch_persists batch n l
    unfold dispatchStep
    cases hassign : assignFirstFree x st.1 with
    | some evs =>
      rcases h with h | h
      · exact Or.inl (mem_evAssigned_preserved hassign h)
      · exact Or.inr h
    | none =>
      rcases h with h | h
      · exact Or.inl h
      · exact Or.inr (List.mem_append_left batch h)

/-- Every notification of the processed list ends up either assigned
to a set event or inside the deferred list, provided each overflow
appends a superset (the batch) containing it. -/
theorem dispatch_complete (batch : List Nat) :
    ∀ (l : List Nat) (st : List Ev × List Nat),
      (∀ x ∈ l, x ∈ batch) →
      ∀ n ∈ l,
        n ∈ evAssigned (List.foldl (dispatchStep batch) st l).1 ∨
        n ∈ (List.foldl (dispatchStep batch) st l).2
  | [], _, _, n, hn => by simp at hn
  | x :: l, st, hsub, n, hn => by
    rw [List.foldl_cons]
    rcases List.mem_cons.mp hn with rfl | hn'
    · apply dispatch_persists
      unfold dispatchStep
      cases hassign : assignFirstFree n st.1 with
      | some evs => exact Or.inl (mem_evAssigned_of_assign hassign)
      | none =>
        exact Or.inr (List.mem_append_right st.2 (hsub n (List.mem_cons_self n l)))
    · exact dispatch_complete batch l _
        (fun y hy => hsub y (List.mem_cons_of_mem x hy)) n hn'

/-- When every worker event is set, assignment always fails. -/
theorem assignFirstFree_none_of_allSet {n : Nat} :
    ∀ {evs : List Ev}, (∀ ev ∈ evs, ev.isSet = true) →
      assignFirstFree n evs = none
  | [], _ => rfl
  | ev :: rest, h => by
    have hev : ev.isSet = true := h ev (List.mem_cons_self ev rest)
    simp only [assignFirstFree, hev, if_true]
    rw [assignFirstFree_none_of_allSet (fun e he => h e (List.mem_cons_of_mem ev he))]
    rfl

/-- `k` copies of the batch, appended: what `deferred_tasks += batch`
accumulates over `k` overflowing notifications. -/
def repeatAppend (batch : List Nat) : Nat → List Nat
  | 0 => []
  | k + 1 => batch ++ repeatAppend batch k

/-- With every event set, the dispatch fold leaves the events alone and
appends one copy of the batch per processed notification. -/
theorem dispatch_allSet (batch : List Nat) (evs : List Ev)
    (hset : ∀ ev ∈ evs, ev.isSet = true) :
    ∀ (l : List Nat) (d : List Nat),
      List.foldl (dispatchStep batch) (evs, d) l =
        (evs, d ++ repeatAppend batch l.length)
  | [], d => by simp [repeatAppend]
  | x :: l, d => by
    rw [List.foldl_cons]
    have hstep : dispatchStep batch (evs, d) x = (evs, d ++ batch) := by
      simp [dispatchStep, assignFirstFree_none_of_allSet hset]
    rw [hstep, dispatch_allSet batch evs hset l (d ++ batch)]
    simp [repeatAppend, List.append_assoc]

/-- `stop` cancels every task it sees. -/
theorem stopTasks_all_cancelled :
    ∀ tasks : List TaskStatus,
      stopTasks tasks = List.replicate tasks.length TaskStatus.cancelled
  | [] => rfl
  | t :: ts => by
    show TaskStatus.cancelled :: stopTasks ts = _
    rw [stopTasks_all_cancelled ts]
    rfl

/-- A trace of readiness callbacks that never delivers a notification
leaves `drainNotifications` suspended. -/
theorem drain_empty_trace :
    ∀ m : Nat,
      drainNotifications [] (List.replicate m ([] : List Notification)) = none
  | 0 => rfl
  | m + 1 => by
    rw [List.replicate_succ]
    show drainNotifications ([] ++ []) (List.replicate m []) = none
    exact drain_empty_trace m

/-- Core property of the modelled `drain_notifications`: a returned
sequence is non-empty and is the original buffer followed by the
arrival batches consumed, in FIFO order. -/
theorem drain_spec :
    ∀ (arrivals : List (List Notification)) (buffer res : List Notification),
      drainNotifications buffer arrivals = some res →
      res ≠ [] ∧ ∃ k, res = buffer ++ (arrivals.take k).flatten
  | [], buffer, res, h => by simp [drainNotifications] at h
  | batch :: rest, buffer, res, h => by
    simp only [drainNotifications] at h
    cases hbb : buffer ++ batch with
    | nil =>
      rw [hbb] at h
      simp only [List.isEmpty_nil, if_true] at h
      rcases drain_spec rest [] res h with ⟨hne, k, hres⟩
      rcases List.append_eq_nil.mp hbb with ⟨rfl, rfl⟩
      refine ⟨hne, k + 1, ?_⟩
      simpa using hres
    | cons x xs =>
      rw [hbb] at h
      simp only [List.isEmpty_cons, if_false] at h
      cases h
      constructor
      · simp
      · refine ⟨1, ?_⟩
        rw [hbb.symm]
        simp

/- ### Claim theorems -/

/-- A concrete async session used to exhibit the asynchronous execute
path's return value. -/
def c1SampleSession : ASession :=
  { cursor := { fetched := [[42]], rowcount := 1 }
    result := none
    evSet := false
    readerRegistered := false }

/-- C1 counterexample: on the asynchronous path, a successful
`execute_async` with the result flag set stores the row set in the
session's `result` attribute but the call itself returns `None`
(`none`), not the row set — the claim states the result is the return
value of the call in both paths, which fails on the asynchronous
path. -/
theorem c1_async_return_counterexample :
    executeAsync none c1SampleSession true =
      Except.ok
        ({ c1SampleSession with result := some (DBResult.rows [[42]]) }, none) ∧
    (none : Option DBResult) ≠ some (DBResult.rows [[42]]) :=
  ⟨rfl, by simp⟩

/-- C1 amended: the synchronous path returns the row set when the
result flag is true and the affected-row count when it is false; the
asynchronous path suspends until the response is consumed (the awaited
event is set only by the retrieval callback), stores the same value in
the session's `result` attribute, and returns `None`. -/
theorem c1_execute_result_amended (c : Cursor) (s : ASession) (flag : Bool) :
    executeNormal none c flag =
      Except.ok (some (if flag then DBResult.rows c.fetched
                       else DBResult.rowcount c.rowcount)) ∧
    executeAsync none s flag =
      Except.ok
        ({ s with
            result := some (if flag then DBResult.rows s.cursor.fetched
                            else DBResult.rowcount s.cursor.rowcount)
            evSet := false
            readerRegistered := false }, none) := by
  cases flag <;> exact ⟨rfl, rfl⟩

/-- C2 counterexample: with every worker event busy, the notification
`2` is appended to the deferred list (not counted by any drop counter —
none exists); a worker iteration later pops it while only executing the
query for its own event payload `1`, so `2` leaves the system neither
processed by any worker nor counted — refuting "never neither".
Moreover dispatching the batch `[1, 2]` against a single free event
assigns `1` to that event and also appends the whole batch, `1`
included, to the deferred list. -/
theorem c2_deferred_lost_counterexample :
    dispatchBatch [2] [{ isSet := true, data := some 1 }] [] =
      ([{ isSet := true, data := some 1 }], [2]) ∧
    workerIteration 1 [2] = ([1], []) ∧
    2 ∉ ([1] : List Nat) ∧
    dispatchBatch [1, 2] [{ isSet := false, data := none }] [] =
      ([{ isSet := true, data := some 1 }], [1, 2]) := by
  decide

/-- C2 amended: every notification of a received batch is either
assigned to a set worker event or present in the deferred list after
dispatch (it can be both, since an overflow appends the whole batch);
there is no drop counter, and a worker iteration executes the query
only for its own event payload while the head of the deferred list is
popped without being executed. -/
theorem c2_dispatch_amended (batch : List Nat) (evs : List Ev)
    (deferred : List Nat) (n : Nat) (h : n ∈ batch) :
    (n ∈ evAssigned (dispatchBatch batch evs deferred).1 ∨
     n ∈ (dispatchBatch batch evs deferred).2) ∧
    ∀ p ds, workerIteration p ds = ([p], ds.tail) :=
  ⟨dispatch_complete batch batch (evs, deferred) (fun _ hx => hx) n h,
   fun _ _ => rfl⟩

/-- C2 witness: the amended statement at the batch `[5]` with no
events. -/
theorem c2_dispatch_amended_witness :
    5 ∈ ([5] : List Nat) ∧
    ((5 ∈ evAssigned (dispatchBatch [5] [] []).1 ∨
      5 ∈ (dispatchBatch [5] [] []).2) ∧
     ∀ p ds, workerIteration p ds = ([p], ds.tail)) :=
  ⟨by decide, c2_dispatch_amended [5] [] [] 5 (by decide)⟩

/-- C3 counterexample: a poll result other than OK/READ/WRITE makes
`wait` raise the raw `psycopg2.OperationalError`, not the `DBException`
(DriverError) wrapper the claim requires; the READ/WRITE cases perform
blocking `select.select` calls on the thread rather than registering
interest with the cooperative scheduler. -/
theorem c3_raw_error_counterexample :
    waitRun [PollState.other 7] =
      some (Except.error (RaisedErr.operationalError 7)) ∧
    raisedIsDriverError (waitRun [PollState.other 7]) = false ∧
    waitRun [PollState.pollRead, PollState.pollWrite, PollState.ok] =
      some (Except.ok [WaitAction.selectRead, WaitAction.selectWrite]) :=
  ⟨rfl, rfl, rfl⟩

/-- C3 amended: the readiness loop `wait` handles each poll outcome as:
OK finishes the loop; WANT_READ performs a blocking select for
readability and re-polls; WANT_WRITE performs a blocking select for
writability and re-polls (both block the thread instead of registering
with the cooperative scheduler); any other poll result raises the raw
`psycopg2.OperationalError` unwrapped; and every finite alternation of
WANT_READ and WANT_WRITE during one operation is handled. -/
theorem c3_readiness_loop_amended (flips : List WaitAction) :
    waitRun (flips.map pollOf ++ [PollState.ok]) = some (Except.ok flips) ∧
    ∀ code,
      waitRun (flips.map pollOf ++ [PollState.other code]) =
        some (Except.error (RaisedErr.operationalError code)) := by
  induction flips with
  | nil => exact ⟨rfl, fun _ => rfl⟩
  | cons a flips ih =>
    cases a <;>
      exact ⟨by simp [waitRun, pollOf, ih.1, Except.map],
             fun code => by simp [waitRun, pollOf, ih.2 code, Except.map]⟩

/-- C4 counterexample: with every worker event busy, a notification is
not dropped: it is buffered client-side in the deferred list, and no
drop counter is incremented (none exists in the program). -/
theorem c4_buffered_not_dropped_counterexample :
    dispatchBatch [7] [{ isSet := true, data := some 0 }] [] =
      ([{ isSet := true, data := some 0 }], [7]) ∧
    7 ∈ ([7] : List Nat) := by
  decide

/-- C4 amended: when no worker event is free, the listener appends the
whole batch to an unbounded client-side deferred list, once per
overflowing notification; nothing is dropped, no drop counter exists,
and the list grows without bound (by the square of the batch length
when all events are busy). -/
theorem c4_overflow_amended (batch : List Nat) (evs : List Ev)
    (deferred : List Nat) (h : ∀ ev ∈ evs, ev.isSet = true) :
    dispatchBatch batch evs deferred =
      (evs, deferred ++ repeatAppend batch batch.length) :=
  dispatch_allSet batch evs h batch deferred

/-- C4 witness: dispatching `[1, 2]` against one busy event defers two
copies of the batch. -/
theorem c4_overflow_amended_witness :
    (∀ ev ∈ [({ isSet := true, data := some 9 } : Ev)], ev.isSet = true) ∧
    dispatchBatch [1, 2] [{ isSet := true, data := some 9 }] [] =
      ([{ isSet := true, data := some 9 }], [1, 2, 1, 2]) :=
  ⟨by decide,
   c4_overflow_amended [1, 2] [{ isSet := true, data := some 9 }] [] (by decide)⟩

/-- C5: a channel argument containing a semicolon, a quote, or
whitespace makes `listen` fail with DriverError before any SQL is
issued; for a channel passing the validation, `listen` issues exactly
the LISTEN statement. -/
theorem c5_listen_validation (channel : String) :
    (channel.data.any badChannelChar = true →
      listen channel = ListenOutcome.driverError) ∧
    (channel.data.any badChannelChar = false →
      listen channel = ListenOutcome.issued ["LISTEN " ++ channel]) := by
  constructor <;> intro h <;> simp [listen, h]

/-- C5 witness: a channel containing a semicolon is rejected; the plain
channel `task` is accepted. -/
theorem c5_listen_validation_witness :
    listen "task;drop" = ListenOutcome.driverError ∧
    listen "task" = ListenOutcome.issued ["LISTEN task"] :=
  ⟨(c5_listen_validation "task;drop").1 (by decide),
   (c5_listen_validation "task").2 (by decide)⟩

/-- C6: whenever the modelled `drain_notifications` returns, the
returned sequence is non-empty and consists of the session buffer
followed by the arrival batches consumed, in FIFO order; and a trace
whose callbacks never deliver a notification leaves the call suspended
(it never returns empty). -/
theorem c6_drain_nonempty_fifo (arrivals : List (List Notification))
    (buffer res : List Notification)
    (h : drainNotifications buffer arrivals = some res) :
    res ≠ [] ∧ (∃ k, res = buffer ++ (arrivals.take k).flatten) ∧
    ∀ m, drainNotifications [] (List.replicate m ([] : List Notification)) = none := by
  rcases drain_spec arrivals buffer res h with ⟨hne, hk⟩
  exact ⟨hne, hk, drain_empty_trace⟩

/-- A sample notification for the C6 witness. -/
def sampleNote : Notification :=
  { channel := "task", pid := 1, payload := "a" }

/-- C6 witness: one arrival batch with one notification is returned
whole. -/
theorem c6_drain_nonempty_fifo_witness :
    drainNotifications [] [[sampleNote]] = some [sampleNote] ∧
    ([sampleNote] ≠ ([] : List Notification) ∧
     (∃ k, [sampleNote] =
        [] ++ (([[sampleNote]] : List (List Notification)).take k).flatten) ∧
     ∀ m, drainNotifications [] (List.replicate m ([] : List Notification)) = none) :=
  ⟨rfl, c6_drain_nonempty_fifo [[sampleNote]] [] [sampleNote] rfl⟩

/-- A session holding resources, used to exhibit that scope exit
releases nothing. -/
def c7OpenScope : SessionScope :=
  { connOpen := true, readerRegistered := true, writerRegistered := false }

/-- C7 counterexample: after exiting the session's scope (normal exit
or cancellation), the connection is still open and the reader
subscription still registered — `__exit__` is `pass`, so no close is
performed on any exit path. -/
theorem c7_no_cleanup_counterexample :
    (exitScope c7OpenScope ExitKind.normal).1.connOpen = true ∧
    (exitScope c7OpenScope ExitKind.cancelled).1.readerRegistered = true ∧
    (exitScope c7OpenScope (ExitKind.error 3)).1.connOpen = true := by
  decide

/-- C7 amended: on every exit path from a session's scope, `__exit__`
performs no action at all: the session state is unchanged, exceptions
are not suppressed, the connection is not released and no subscription
is deregistered; the operation is trivially idempotent. -/
theorem c7_exit_noop_amended (s : SessionScope) (k : ExitKind) :
    exitScope s k = (s, false) ∧
    exitScope (exitScope s k).1 k = exitScope s k :=
  ⟨rfl, rfl⟩

/-- C8 counterexample: with `PG_URI` set and `WORKERS_NUM` absent from
the environment, startup neither prints a diagnostic nor exits 1 — it
proceeds and spawns the hard-coded pool of 10 workers; and when
`PG_URI` is missing the diagnostic goes to stdout, not stderr. -/
theorem c8_workers_num_ignored_counterexample :
    lookupEnv [("PG_URI", "postgres://db")] "WORKERS_NUM" = none ∧
    startup [("PG_URI", "postgres://db")] =
      { messages := [], exitCode := none, poolSize := some 10 } ∧
    (startup [("PG_URI", "postgres://db")]).exitCode ≠ some 1 ∧
    (startup []).messages =
      [(OutStream.stdout, "Environment variable PG_URI is not defined!!!")] ∧
    OutStream.stdout ≠ OutStream.stderr := by
  decide

/-- C8 amended: at startup only `PG_URI` is required: when it is
missing a diagnostic naming it is printed (to stdout) and the process
exits with code 1; `WORKERS_NUM` is never read, and when `PG_URI` is
present the worker pool has the hard-coded size 10. -/
theorem c8_startup_amended (env : List (String × String)) :
    (lookupEnv env "PG_URI" = none →
      startup env =
        { messages :=
            [(OutStream.stdout, "Environment variable PG_URI is not defined!!!")]
          exitCode := some 1
          poolSize := none }) ∧
    (∀ uri, lookupEnv env "PG_URI" = some uri →
      startup env = { messages := [], exitCode := none, poolSize := some 10 }) := by
  constructor
  · intro h
    simp [startup, h]
  · intro uri h
    simp [startup, h]

/-- C8 witness: the empty environment exits 1 with the diagnostic; an
environment with only `PG_URI` proceeds with 10 workers. -/
theorem c8_startup_amended_witness :
    startup [] =
      { messages :=
          [(OutStream.stdout, "Environment variable PG_URI is not defined!!!")]
        exitCode := some 1
        poolSize := none } ∧
    startup [("PG_URI", "postgres://db")] =
      { messages := [], exitCode := none, poolSize := some 10 } :=
  ⟨(c8_startup_amended []).1 rfl,
   (c8_startup_amended [("PG_URI", "postgres://db")]).2 "postgres://db" rfl⟩

/-- C9 counterexample: the first SIGINT schedules the cooperative stop
coroutine, but a second SIGINT hands the already-consumed coroutine
object to the scheduler again, which fails with a RuntimeError — it
does not escalate to immediate termination (no such escalation path
exists in the program). -/
theorem c9_second_signal_counterexample :
    (fireSignal { sigintConsumed := false, sigtermConsumed := false }
        Sig.sigint).2 = FireOutcome.cooperativeStop ∧
    (fireSignal
        (fireSignal { sigintConsumed := false, sigtermConsumed := false }
          Sig.sigint).1 Sig.sigint).2 = FireOutcome.coroutineReuseError ∧
    FireOutcome.coroutineReuseError ≠ FireOutcome.cooperativeStop := by
  decide

/-- C9 amended: the first occurrence of a signal schedules the
cooperative `stop` coroutine, which cancels every spawned task, awaits
them (with no grace deadline) and stops the loop, after which the
process exits with code 0; a second occurrence of the same signal
re-submits the consumed coroutine object, producing a RuntimeError
rather than immediate termination. -/
theorem c9_shutdown_amended (st : SignalInstall) (tasks : List TaskStatus)
    (h : st.sigintConsumed = false) :
    fireSignal st Sig.sigint =
      ({ st with sigintConsumed := true }, FireOutcome.cooperativeStop) ∧
    stopTasks tasks = List.replicate tasks.length TaskStatus.cancelled ∧
    exitCodeAfterLoopStop = 0 ∧
    (fireSignal { st with sigintConsumed := true } Sig.sigint).2 =
      FireOutcome.coroutineReuseError := by
  refine ⟨?_, stopTasks_all_cancelled tasks, rfl, rfl⟩
  simp [fireSignal, h]

/-- C9 witness: the amended statement for fresh handlers and one
running task. -/
theorem c9_shutdown_amended_witness :
    ({ sigintConsumed := false, sigtermConsumed := false } :
        SignalInstall).sigintConsumed = false ∧
    (fireSignal { sigintConsumed := false, sigtermConsumed := false }
        Sig.sigint =
      ({ sigintConsumed := true, sigtermConsumed := false },
       FireOutcome.cooperativeStop) ∧
     stopTasks [TaskStatus.running] =
       List.replicate 1 TaskStatus.cancelled ∧
     exitCodeAfterLoopStop = 0 ∧
     (fireSignal { sigintConsumed := true, sigtermConsumed := false }
        Sig.sigint).2 = FireOutcome.coroutineReuseError) :=
  ⟨rfl,
   c9_shutdown_amended { sigintConsumed := false, sigtermConsumed := false }
     [TaskStatus.running] rfl⟩

/-- C10: in synchronous mode the invariant "the private transaction
flag is true iff connection autocommit is false" holds after
construction and is preserved by `start_transaction`,
`close_transaction` and `rollback_transaction`; each of the three is
idempotent — a repeated call leaves the state unchanged and issues no
further connection operation. -/
theorem c10_sync_transaction_invariant (s : SyncSession) (h : txInvariant s) :
    txInvariant initSync ∧
    txInvariant (startTransaction s) ∧
    txInvariant (closeTransaction s).1 ∧
    txInvariant (rollbackTransaction s).1 ∧
    startTransaction (startTransaction s) = startTransaction s ∧
    closeTransaction (closeTransaction s).1 = ((closeTransaction s).1, []) ∧
    rollbackTransaction (rollbackTransaction s).1 =
      ((rollbackTransaction s).1, []) := by
  rcases s with ⟨a, t⟩
  revert h
  cases a <;> cases t <;> decide

/-- C10 witness: the invariant and idempotence at the
freshly constructed synchronous session. -/
theorem c10_sync_transaction_invariant_witness :
    txInvariant initSync ∧
    (txInvariant initSync ∧
     txInvariant (startTransaction initSync) ∧
     txInvariant (closeTransaction initSync).1 ∧
     txInvariant (rollbackTransaction initSync).1 ∧
     startTransaction (startTransaction initSync) =
       startTransaction initSync ∧
     closeTransaction (closeTransaction initSync).1 =
       ((closeTransaction initSync).1, []) ∧
     rollbackTransaction (rollbackTransaction initSync).1 =
       ((rollbackTransaction initSync).1, [])) :=
  ⟨by decide, c10_sync_transaction_invariant initSync (by decide)⟩

end AsyncDBHandler
